import Mathlib

/-!
Shallow embedding of the dummy Logflare sink server
(`src/docker/build/dummy/rust/src/main.rs`): an axum HTTP service with a
process-wide atomic request counter (`REQUEST_COUNT : AtomicUsize`), a lazily
initialized start timestamp (`START_TIME`), three handlers
(`logflare_handler`, `health_handler`, `fallback`), and a route table

  POST /api/*path → logflare_handler
  POST /logs      → logflare_handler
  GET  /api/*path → logflare_handler
  GET  /logs      → logflare_handler
  GET  /health    → health_handler
  (fallback)      → fallback

Dispatch follows axum's `Router`/`MethodRouter` semantics: the registered
fallback runs only when the request path matches no registered path pattern;
a request whose path matches a pattern but whose method has no registered
handler is answered by the `MethodRouter`'s default fallback, HTTP 405
Method Not Allowed with an empty body; `get` routes also serve HEAD requests.
The `/api/*path` wildcard (matchit catch-all) requires a non-empty remainder
after `/api/`, so the exact paths `/api` and `/api/` match no route.

The only mutable state is the counter; `AtomicUsize::fetch_add(1, SeqCst)`
wraps modulo 2^64 (usize is 64 bits on the container targets), so the
counter is a `Nat` kept below `usizeBound = 2^64` with an explicit `% 2^64`
on increment.  Time is modelled by passing the start timestamp and the
current clock reading (whole seconds) to the handler; `SystemTime::elapsed`
fails (returns `Err`) exactly when the clock reads earlier than the start
time, which the code absorbs with `unwrap_or(Duration::from_secs(0))`.
-/

/-- usize arithmetic is modulo 2^64 on the 64-bit build targets. -/
def usizeBound : Nat := 2 ^ 64

/-- HTTP request methods; `OTHER` stands for any method other than the
listed ones (e.g. PATCH, OPTIONS). -/
inductive Method
  | GET
  | POST
  | HEAD
  | DELETE
  | PUT
  | OTHER
deriving DecidableEq

/-- An HTTP request as the handlers can observe it: method, path, body and
headers.  The handlers in the source take no extractors, so body and headers
are never read. -/
structure Request where
  method : Method
  path : String
  body : String
  headers : List (String × String)
deriving DecidableEq

/-- The mutable server state: the single process-wide atomic counter
`REQUEST_COUNT`.  Nothing else in the program is mutable. -/
structure ServerState where
  counter : Nat
deriving DecidableEq

/-- `REQUEST_COUNT` is initialized with `AtomicUsize::new(0)`. -/
def initialState : ServerState := { counter := 0 }

/-- A minimal JSON value type for response bodies. -/
inductive Json
  | bool (b : Bool)
  | str (s : String)
  | num (n : Nat)
  | obj (fields : List (String × Json))

/-- Response body: a JSON document, plain text, or empty. -/
inductive RespBody
  | json (j : Json)
  | text (s : String)
  | empty

/-- An HTTP response: status code and body. -/
structure Response where
  status : Nat
  body : RespBody

/-- Which behavior the router dispatches a request to. -/
inductive Dispatch
  | ingest
  | health
  | methodNotAllowed
  | fallbackRoute
deriving DecidableEq

/-- The matchit catch-all `/api/*path`: the path starts with `/api/` and has
a non-empty remainder (a catch-all parameter never matches empty, so the
exact paths `/api` and `/api/` do not match). -/
def isApiWildcardPath (p : String) : Bool :=
  match p.data with
  | '/' :: 'a' :: 'p' :: 'i' :: '/' :: rest => !rest.isEmpty
  | _ => false

/-- The route table of `main`, including axum's method dispatch: `get` routes
also serve HEAD; a path match with an unregistered method is answered by the
`MethodRouter` default (405), and only a path with no match at all reaches
the registered fallback. -/
def route (m : Method) (p : String) : Dispatch :=
  if isApiWildcardPath p || p == "/logs" then
    match m with
    | Method.POST => Dispatch.ingest
    | Method.GET => Dispatch.ingest
    | Method.HEAD => Dispatch.ingest
    | _ => Dispatch.methodNotAllowed
  else if p == "/health" then
    match m with
    | Method.GET => Dispatch.health
    | Method.HEAD => Dispatch.health
    | _ => Dispatch.methodNotAllowed
  else Dispatch.fallbackRoute

/-- Whether a path matches some registered path pattern (`/api/*path`,
`/logs`, `/health`); if not, the request reaches the registered fallback. -/
def pathHasRoute (p : String) : Bool :=
  isApiWildcardPath p || p == "/logs" || p == "/health"

/-- The ingest response body `json!({ "success": true })`. -/
def successJson : Json := Json.obj [("success", Json.bool true)]

/-- `logflare_handler`: `REQUEST_COUNT.fetch_add(1, SeqCst)` (wrapping usize
increment) and the fixed `200 {"success": true}` response. -/
def logflare_handler (st : ServerState) : ServerState × Response :=
  ({ counter := (st.counter + 1) % usizeBound },
   { status := 200, body := RespBody.json successJson })

/-- The `HealthResponse` payload struct of the source. -/
structure HealthResponse where
  status : String
  requests_handled : Nat
  uptime_seconds : Nat
deriving DecidableEq

/-- `SystemTime::elapsed` of `START_TIME`, in whole seconds: fails (`none`,
the `Err` case) exactly when the current clock reads earlier than the start
time. -/
def elapsed (start now : Nat) : Option Nat :=
  if start ≤ now then some (now - start) else none

/-- `health_handler`: reads the clock (absorbing failure with
`unwrap_or(Duration::from_secs(0))`), reads the counter, and builds the
payload with the literal status `"ok"`.  It never writes the counter. -/
def health_handler (st : ServerState) (start now : Nat) : HealthResponse :=
  let uptime := (elapsed start now).getD 0
  let count := st.counter
  { status := "ok", requests_handled := count, uptime_seconds := uptime }

/-- Serialization of `HealthResponse` to its JSON body. -/
def healthJson (h : HealthResponse) : Json :=
  Json.obj
    [("status", Json.str h.status),
     ("requests_handled", Json.num h.requests_handled),
     ("uptime_seconds", Json.num h.uptime_seconds)]

/-- The registered `fallback` handler: `404` with plain text `Not found`. -/
def fallbackResponse : Response :=
  { status := 404, body := RespBody.text "Not found" }

/-- axum's `MethodRouter` default response for a path match whose method has
no handler: `405 Method Not Allowed`, empty body. -/
def methodNotAllowedResponse : Response :=
  { status := 405, body := RespBody.empty }

/-- One full request/response exchange: route the request, run the dispatched
handler on the current state, return the new state and the response.
`start` is the (immutable once initialized) `START_TIME` and `now` the clock
reading at handler execution, both in whole seconds. -/
def handleRequest (start now : Nat) (req : Request) (st : ServerState) :
    ServerState × Response :=
  match route req.method req.path with
  | Dispatch.ingest => logflare_handler st
  | Dispatch.health =>
      (st, { status := 200, body := RespBody.json (healthJson (health_handler st start now)) })
  | Dispatch.methodNotAllowed => (st, methodNotAllowedResponse)
  | Dispatch.fallbackRoute => (st, fallbackResponse)

/-- One observed request in a trace: what was sent and the clock reading at
the moment the handler ran. -/
structure Event where
  method : Method
  path : String
  body : String
  headers : List (String × String)
  now : Nat
deriving DecidableEq

/-- The request of an event. -/
def Event.toRequest (e : Event) : Request :=
  { method := e.method, path := e.path, body := e.body, headers := e.headers }

/-- The state transition of one event. -/
def eventStep (start : Nat) (st : ServerState) (e : Event) : ServerState :=
  (handleRequest start e.now e.toRequest st).1

/-- Run a sequence of requests in order from a given state. -/
def runTrace (start : Nat) (st : ServerState) (evs : List Event) : ServerState :=
  evs.foldl (eventStep start) st

/-- Whether an event is dispatched to the ingest handler. -/
def isIngestEvent (e : Event) : Bool :=
  decide (route e.method e.path = Dispatch.ingest)

/-- A concrete ingest event: `POST /logs` with a JSON body. -/
def evPostLogs : Event :=
  { method := Method.POST, path := "/logs", body := "\x7b\"foo\":\"bar\"\x7d",
    headers := [("content-type", "application/json")], now := 7 }

/-- A concrete ingest event: `GET /api/stream` with empty body. -/
def evGetApi : Event :=
  { method := Method.GET, path := "/api/stream", body := "", headers := [], now := 9 }

/-! ### Helper lemmas about the dispatcher and traces -/

theorem usizeBound_pos : 0 < usizeBound := by norm_num [usizeBound]

theorem handleRequest_of_route_ingest (start now : Nat) (req : Request) (st : ServerState)
    (h : route req.method req.path = Dispatch.ingest) :
    handleRequest start now req st = logflare_handler st := by
  simp [handleRequest, h]

theorem handleRequest_of_route_health (start now : Nat) (req : Request) (st : ServerState)
    (h : route req.method req.path = Dispatch.health) :
    handleRequest start now req st =
      (st, { status := 200, body := RespBody.json (healthJson (health_handler st start now)) }) := by
  simp [handleRequest, h]

theorem handleRequest_of_route_mna (start now : Nat) (req : Request) (st : ServerState)
    (h : route req.method req.path = Dispatch.methodNotAllowed) :
    handleRequest start now req st = (st, methodNotAllowedResponse) := by
  simp [handleRequest, h]

theorem handleRequest_of_route_fallback (start now : Nat) (req : Request) (st : ServerState)
    (h : route req.method req.path = Dispatch.fallbackRoute) :
    handleRequest start now req st = (st, fallbackResponse) := by
  simp [handleRequest, h]

theorem route_fallback_of_no_path (m : Method) (p : String)
    (h : pathHasRoute p = false) : route m p = Dispatch.fallbackRoute := by
  unfold pathHasRoute at h
  simp only [Bool.or_eq_false_iff] at h
  unfold route
  rw [h.1.1, h.1.2, h.2]
  simp

theorem eventStep_state (start : Nat) (st : ServerState) (e : Event) :
    eventStep start st e =
      (if isIngestEvent e then { counter := (st.counter + 1) % usizeBound } else st) := by
  unfold eventStep handleRequest isIngestEvent
  cases hr : route e.method e.path <;>
    simp [Event.toRequest, hr, logflare_handler]

theorem runTrace_nil (start : Nat) (st : ServerState) : runTrace start st [] = st := rfl

theorem runTrace_cons (start : Nat) (st : ServerState) (e : Event) (evs : List Event) :
    runTrace start st (e :: evs) = runTrace start (eventStep start st e) evs := rfl

theorem runTrace_counter (start : Nat) (evs : List Event) :
    ∀ st : ServerState, st.counter < usizeBound →
      (runTrace start st evs).counter
        = (st.counter + evs.countP isIngestEvent) % usizeBound := by
  induction evs with
  | nil =>
      intro st h
      simp [runTrace_nil, List.countP_nil, Nat.mod_eq_of_lt h]
  | cons e evs ih =>
      intro st h
      rw [runTrace_cons, eventStep_state]
      by_cases he : isIngestEvent e
      · rw [if_pos he, ih _ (Nat.mod_lt _ usizeBound_pos)]
        simp only [List.countP_cons, he, if_pos]
        rw [Nat.mod_add_mod]
        have harith : st.counter + 1 + evs.countP isIngestEvent
            = st.counter + (evs.countP isIngestEvent + 1) := by omega
        rw [harith]
      · rw [if_neg he, ih _ h]
        simp only [List.countP_cons, he]
        simp

theorem countP_replicate_ingest (e : Event) (h : isIngestEvent e = true) (n : Nat) :
    (List.replicate n e).countP isIngestEvent = n := by
  induction n with
  | zero => rfl
  | succ n ih => rw [List.replicate_succ, List.countP_cons, ih, h]; simp

theorem replicate_ingest_counter (e : Event) (h : isIngestEvent e = true) (n : Nat) :
    (runTrace 0 initialState (List.replicate n e)).counter = n % usizeBound := by
  rw [runTrace_counter 0 (List.replicate n e) initialState (by norm_num [initialState, usizeBound]),
    countP_replicate_ingest e h n]
  simp [initialState]

theorem uptime_eq_sub (start now : Nat) : (elapsed start now).getD 0 = now - start := by
  unfold elapsed
  split
  · rfl
  · simp
    omega

theorem health_requests_handled (st : ServerState) (start now : Nat) :
    (health_handler st start now).requests_handled = st.counter := rfl

theorem health_uptime (st : ServerState) (start now : Nat) :
    (health_handler st start now).uptime_seconds = now - start := by
  simp [health_handler, uptime_eq_sub]

/-! ### Claims -/

/-- Claim C1, counterexample to the claim as stated: with the counter at the
maximum usize value 2^64 − 1, an ingest request (`POST /logs`) does not
increment the counter by exactly 1 — the wrapping `fetch_add` takes it to 0. -/
theorem c1_counterexample :
    ((handleRequest 0 0
        { method := Method.POST, path := "/logs", body := "", headers := [] }
        { counter := usizeBound - 1 }).1).counter ≠ usizeBound - 1 + 1 := by
  decide

/-- Claim C1 (amended): every request dispatched to an ingest route (POST or
GET on `/api/` plus a sub-path, or on `/logs`) sets the counter to its old
value plus 1 modulo 2^64 — so plus exactly 1 whenever the counter is below
2^64 − 1 — and returns HTTP 200 with the JSON body `\x7b"success": true\x7d`;
the new state and the response are the same for every request body, header
list and sub-path, and there is no error path. -/
theorem c1_ingest_increments_and_succeeds (start now : Nat) (req : Request)
    (st : ServerState) (h : route req.method req.path = Dispatch.ingest) :
    (handleRequest start now req st).1 = { counter := (st.counter + 1) % usizeBound }
    ∧ (handleRequest start now req st).2.status = 200
    ∧ (handleRequest start now req st).2.body = RespBody.json successJson := by
  rw [handleRequest_of_route_ingest start now req st h]
  exact ⟨rfl, rfl, rfl⟩

/-- Witness for C1: at `POST /logs` from counter 5 the route is ingest, the
counter becomes 6, and the response status is 200. -/
theorem c1_witness :
    route Method.POST "/logs" = Dispatch.ingest
    ∧ (handleRequest 0 0 { method := Method.POST, path := "/logs", body := "b", headers := [] }
        { counter := 5 }).1.counter = 6
    ∧ (handleRequest 0 0 { method := Method.POST, path := "/logs", body := "b", headers := [] }
        { counter := 5 }).2.status = 200 := by
  have h := c1_ingest_increments_and_succeeds 0 0
    { method := Method.POST, path := "/logs", body := "b", headers := [] }
    { counter := 5 } (by decide)
  refine ⟨by decide, ?_, h.2.1⟩
  rw [h.1]
  decide

/-- Claim C2, counterexample to the claim as stated: after N = 2^64
successful ingest requests from process start the counter has wrapped, so a
subsequent health request reports `requests_handled` 0, not N. -/
theorem c2_counterexample :
    (health_handler (runTrace 0 initialState (List.replicate usizeBound evPostLogs))
        0 0).requests_handled ≠ usizeBound
    ∧ (health_handler (runTrace 0 initialState (List.replicate usizeBound evPostLogs))
        0 0).requests_handled = 0 := by
  have h := replicate_ingest_counter evPostLogs (by decide) usizeBound
  rw [Nat.mod_self] at h
  rw [health_requests_handled, h]
  exact ⟨by norm_num [usizeBound], rfl⟩

/-- Claim C2 (amended): after any sequence of N successful ingest requests
from process start, a subsequent health request reports `requests_handled`
equal to N modulo 2^64 (hence equal to N whenever N < 2^64). -/
theorem c2_health_reports_ingest_count (start now : Nat) (evs : List Event)
    (h : ∀ e ∈ evs, isIngestEvent e = true) :
    (health_handler (runTrace start initialState evs) start now).requests_handled
      = evs.length % usizeBound := by
  rw [health_requests_handled,
    runTrace_counter start evs initialState (by norm_num [initialState, usizeBound]),
    List.countP_eq_length.mpr h]
  simp [initialState]

/-- Witness for C2: three ingest requests (two `POST /logs`, one
`GET /api/stream`), then a health request reporting 3. -/
theorem c2_witness :
    ([evPostLogs, evGetApi, evPostLogs].all isIngestEvent) = true
    ∧ (health_handler (runTrace 0 initialState [evPostLogs, evGetApi, evPostLogs])
        0 42).requests_handled = 3 := by
  refine ⟨by decide, ?_⟩
  rw [c2_health_reports_ingest_count 0 42 [evPostLogs, evGetApi, evPostLogs] (by decide)]
  decide

/-- Claim C3, counterexample to the claim as stated: `DELETE /logs` is a
method+path combination outside the route table, yet the response is axum's
405 Method Not Allowed (empty body), not 404 `Not found`. -/
theorem c3_counterexample :
    (handleRequest 0 0 { method := Method.DELETE, path := "/logs", body := "", headers := [] }
      initialState).2.status = 405
    ∧ (405 : Nat) ≠ 404 := by
  exact ⟨rfl, by decide⟩

/-- Claim C3 (amended): a request whose path matches no registered path
pattern is answered by the registered fallback — HTTP 404 with plain-text
body `Not found` — leaving the state unchanged; a request whose path matches
a pattern but whose method has no handler there is answered by axum's
default 405 Method Not Allowed, also leaving the state unchanged. -/
theorem c3_unmatched_requests (start now : Nat) (req : Request) (st : ServerState) :
    (pathHasRoute req.path = false →
      handleRequest start now req st = (st, fallbackResponse))
    ∧ (route req.method req.path = Dispatch.methodNotAllowed →
      handleRequest start now req st = (st, methodNotAllowedResponse)) := by
  constructor
  · intro h
    exact handleRequest_of_route_fallback start now req st
      (route_fallback_of_no_path req.method req.path h)
  · intro h
    exact handleRequest_of_route_mna start now req st h

/-- Witness for C3: `GET /nope` gets the 404 `Not found` fallback and
`DELETE /logs` gets the 405 default, both leaving the state unchanged. -/
theorem c3_witness :
    pathHasRoute "/nope" = false
    ∧ handleRequest 0 0 { method := Method.GET, path := "/nope", body := "", headers := [] }
        initialState = (initialState, fallbackResponse)
    ∧ route Method.DELETE "/logs" = Dispatch.methodNotAllowed
    ∧ handleRequest 0 0 { method := Method.DELETE, path := "/logs", body := "", headers := [] }
        initialState = (initialState, methodNotAllowedResponse) := by
  refine ⟨by decide, ?_, by decide, ?_⟩
  · exact (c3_unmatched_requests 0 0
      { method := Method.GET, path := "/nope", body := "", headers := [] } initialState).1
      (by decide)
  · exact (c3_unmatched_requests 0 0
      { method := Method.DELETE, path := "/logs", body := "", headers := [] } initialState).2
      (by decide)

/-- Claim C4: the health handler never mutates the counter — for every
invocation dispatched to the health route, the server state after the call
equals the state before it. -/
theorem c4_health_preserves_counter (start now : Nat) (req : Request) (st : ServerState)
    (h : route req.method req.path = Dispatch.health) :
    (handleRequest start now req st).1 = st := by
  rw [handleRequest_of_route_health start now req st h]

/-- Witness for C4: `GET /health` at counter 42 leaves the counter at 42. -/
theorem c4_witness :
    route Method.GET "/health" = Dispatch.health
    ∧ (handleRequest 3 9 { method := Method.GET, path := "/health", body := "", headers := [] }
        { counter := 42 }).1 = { counter := 42 } := by
  exact ⟨by decide, c4_health_preserves_counter 3 9
    { method := Method.GET, path := "/health", body := "", headers := [] }
    { counter := 42 } (by decide)⟩

/-- Claim C5: the reported `uptime_seconds` is a non-negative integer; when
the clock read fails (`SystemTime::elapsed` errors because the clock reads
earlier than the start time) the handler substitutes 0; and a health request
always gets HTTP 200 — no error ever surfaces to the caller. -/
theorem c5_uptime_nonneg_and_absorbed (st : ServerState) (start now : Nat) :
    (0 : Int) ≤ ((health_handler st start now).uptime_seconds : Int)
    ∧ (elapsed start now = none → (health_handler st start now).uptime_seconds = 0)
    ∧ (handleRequest start now
        { method := Method.GET, path := "/health", body := "", headers := [] } st).2.status
      = 200 := by
  refine ⟨Int.ofNat_nonneg _, ?_, ?_⟩
  · intro h
    simp [health_handler, h]
  · rw [handleRequest_of_route_health start now
      { method := Method.GET, path := "/health", body := "", headers := [] } st (by decide)]

/-- Witness for C5: with start time 5 and clock reading 3 the clock read
fails and the reported uptime is 0. -/
theorem c5_witness :
    elapsed 5 3 = none
    ∧ (health_handler { counter := 0 } 5 3).uptime_seconds = 0 := by
  exact ⟨by decide, (c5_uptime_nonneg_and_absorbed { counter := 0 } 5 3).2.1 (by decide)⟩

/-- Claim C6, counterexample to the claim as stated: in the process lifetime
that serves 2^64 ingest requests from start, the counter reaches 2^64 − 1
and the next ingest operation wraps it to 0 — a decrease, so the counter is
not monotonically non-decreasing over that lifetime. -/
theorem c6_counterexample :
    (runTrace 0 initialState (List.replicate (usizeBound - 1) evPostLogs)).counter
      = usizeBound - 1
    ∧ (eventStep 0 (runTrace 0 initialState (List.replicate (usizeBound - 1) evPostLogs))
        evPostLogs).counter = 0
    ∧ ¬ (usizeBound - 1 ≤ 0) := by
  have h1 : (runTrace 0 initialState (List.replicate (usizeBound - 1) evPostLogs)).counter
      = usizeBound - 1 := by
    rw [replicate_ingest_counter evPostLogs (by decide) (usizeBound - 1)]
    exact Nat.mod_eq_of_lt (by norm_num [usizeBound])
  refine ⟨h1, ?_, by norm_num [usizeBound]⟩
  rw [eventStep_state, if_pos (show isIngestEvent evPostLogs = true from by decide)]
  rw [h1]
  decide

/-- Claim C6 (amended): the counter starts at 0; no operation other than an
ingest ever changes it; and every operation leaves it greater than or equal
to its previous value provided the previous value is below 2^64 − 1 (the
2^64-th ingest wraps the counter from 2^64 − 1 to 0). -/
theorem c6_counter_monotone_below_wrap :
    initialState.counter = 0
    ∧ (∀ (start now : Nat) (req : Request) (st : ServerState),
        route req.method req.path ≠ Dispatch.ingest →
          (handleRequest start now req st).1 = st)
    ∧ (∀ (start now : Nat) (req : Request) (st : ServerState),
        st.counter + 1 < usizeBound →
          st.counter ≤ (handleRequest start now req st).1.counter) := by
  refine ⟨rfl, ?_, ?_⟩
  · intro start now req st h
    cases hr : route req.method req.path
    · exact absurd hr h
    · rw [handleRequest_of_route_health start now req st hr]
    · rw [handleRequest_of_route_mna start now req st hr]
    · rw [handleRequest_of_route_fallback start now req st hr]
  · intro start now req st h
    cases hr : route req.method req.path
    · rw [handleRequest_of_route_ingest start now req st hr]
      show st.counter ≤ (st.counter + 1) % usizeBound
      rw [Nat.mod_eq_of_lt h]
      omega
    · rw [handleRequest_of_route_health start now req st hr]
    · rw [handleRequest_of_route_mna start now req st hr]
    · rw [handleRequest_of_route_fallback start now req st hr]

/-- Witness for C6: a health request leaves the counter at 3 unchanged, and
an ingest with the counter at 5 (below the wrap point) does not decrease it. -/
theorem c6_witness :
    route Method.GET "/health" ≠ Dispatch.ingest
    ∧ (handleRequest 0 5 { method := Method.GET, path := "/health", body := "", headers := [] }
        { counter := 3 }).1 = { counter := 3 }
    ∧ 5 + 1 < usizeBound
    ∧ 5 ≤ (handleRequest 0 0 { method := Method.POST, path := "/logs", body := "", headers := [] }
        { counter := 5 }).1.counter := by
  refine ⟨by decide, ?_, by decide, ?_⟩
  · exact c6_counter_monotone_below_wrap.2.1 0 5
      { method := Method.GET, path := "/health", body := "", headers := [] }
      { counter := 3 } (by decide)
  · exact c6_counter_monotone_below_wrap.2.2 0 0
      { method := Method.POST, path := "/logs", body := "", headers := [] }
      { counter := 5 } (by decide)

/-- Claim C7: across successive health invocations made in temporal order
(the clock reading at the later call is at least the reading at the earlier
one, with the start time fixed), the reported `uptime_seconds` values are
monotonically non-decreasing. -/
theorem c7_uptime_monotone (start now1 now2 : Nat) (st1 st2 : ServerState)
    (h : now1 ≤ now2) :
    (health_handler st1 start now1).uptime_seconds
      ≤ (health_handler st2 start now2).uptime_seconds := by
  rw [health_uptime, health_uptime]
  omega

/-- Witness for C7: with start time 0, clock readings 1 then 2, the reported
uptimes are non-decreasing. -/
theorem c7_witness :
    (1 : Nat) ≤ 2
    ∧ (health_handler { counter := 0 } 0 1).uptime_seconds
        ≤ (health_handler { counter := 5 } 0 2).uptime_seconds := by
  exact ⟨by decide, c7_uptime_monotone 0 1 2 { counter := 0 } { counter := 5 } (by decide)⟩

/-- Claim C8, counterexample to the claim as stated: a set of N = 2^64
ingest invocations (`GET /api/stream` repeated) leaves the final counter at
0, not at N. -/
theorem c8_counterexample :
    (runTrace 0 initialState (List.replicate usizeBound evGetApi)).counter ≠ usizeBound
    ∧ (runTrace 0 initialState (List.replicate usizeBound evGetApi)).counter = 0 := by
  have h := replicate_ingest_counter evGetApi (by decide) usizeBound
  rw [Nat.mod_self] at h
  rw [h]
  exact ⟨by norm_num [usizeBound], rfl⟩

/-- Claim C8 (amended): each ingest invocation is one atomic wrapping
fetch-and-add, so any execution schedule containing N ingest invocations
(interleaved arbitrarily with other requests) ends with the counter at
exactly N modulo 2^64 — no lost updates — and every reordering
(interleaving) of the same schedule ends with the same counter value. -/
theorem c8_no_lost_updates (evs : List Event) (N : Nat)
    (h : evs.countP isIngestEvent = N) :
    (runTrace 0 initialState evs).counter = N % usizeBound
    ∧ ∀ evs2 : List Event, evs.Perm evs2 →
        (runTrace 0 initialState evs2).counter = N % usizeBound := by
  have key : ∀ l : List Event, l.countP isIngestEvent = N →
      (runTrace 0 initialState l).counter = N % usizeBound := by
    intro l hl
    rw [runTrace_counter 0 l initialState (by norm_num [initialState, usizeBound]), hl]
    simp [initialState]
  exact ⟨key evs h,
    fun evs2 hp => key evs2 (((hp.countP_eq isIngestEvent).symm).trans h)⟩

/-- Witness for C8: a schedule of two ingest invocations ends at 2, and so
does its other interleaving. -/
theorem c8_witness :
    [evPostLogs, evGetApi].countP isIngestEvent = 2
    ∧ (runTrace 0 initialState [evGetApi, evPostLogs]).counter = 2 := by
  refine ⟨by decide, ?_⟩
  rw [(c8_no_lost_updates [evPostLogs, evGetApi] 2 (by decide)).2
    [evGetApi, evPostLogs] (List.Perm.swap evGetApi evPostLogs [])]
  decide

/-- Claim C9: the ingest increment is wrapping machine-word arithmetic —
from the maximum usize value 2^64 − 1 one more ingest takes the counter to
0; after n ingest requests from process start the counter is n % 2^64; and
after 2^64 ingests the counter differs from the invocation count. -/
theorem c9_wrapping_arithmetic :
    (logflare_handler { counter := usizeBound - 1 }).1.counter = 0
    ∧ (∀ n : Nat, (runTrace 0 initialState (List.replicate n evPostLogs)).counter
        = n % usizeBound)
    ∧ (runTrace 0 initialState (List.replicate usizeBound evPostLogs)).counter
        ≠ usizeBound := by
  refine ⟨by decide, fun n => replicate_ingest_counter evPostLogs (by decide) n, ?_⟩
  rw [replicate_ingest_counter evPostLogs (by decide) usizeBound, Nat.mod_self]
  norm_num [usizeBound]

/-- Witness for C9: after 3 ingest requests the counter is 3 % 2^64. -/
theorem c9_witness :
    (runTrace 0 initialState (List.replicate 3 evPostLogs)).counter = 3 % usizeBound :=
  c9_wrapping_arithmetic.2.1 3

/-- Claim C10: the exact path `/api`, with no sub-path segment, does not
match the `/api/*path` wildcard: GET `/api` and POST `/api` reach the
fallback, return 404 `Not found`, and leave the state unchanged. -/
theorem c10_api_exact_is_fallback (start now : Nat) (st : ServerState) (b : String)
    (hs : List (String × String)) :
    route Method.GET "/api" = Dispatch.fallbackRoute
    ∧ route Method.POST "/api" = Dispatch.fallbackRoute
    ∧ handleRequest start now { method := Method.GET, path := "/api", body := b, headers := hs }
        st = (st, fallbackResponse)
    ∧ handleRequest start now { method := Method.POST, path := "/api", body := b, headers := hs }
        st = (st, fallbackResponse) := by
  refine ⟨by decide, by decide, ?_, ?_⟩
  · exact handleRequest_of_route_fallback start now
      { method := Method.GET, path := "/api", body := b, headers := hs } st
      (show route Method.GET "/api" = Dispatch.fallbackRoute from by decide)
  · exact handleRequest_of_route_fallback start now
      { method := Method.POST, path := "/api", body := b, headers := hs } st
      (show route Method.POST "/api" = Dispatch.fallbackRoute from by decide)
